import Mathlib

/-!
Verification development for the remote virtual-filesystem adapter in
`src/spriteFileSystem.ts` (class `SpriteFileSystemProvider`). The source
file contains two variants of the provider: the first uses a bounded-retry
execution layer (`execWithRetry`), the second a single-attempt
error-coercing layer (`safeExec`) plus a client-readiness gate
(`waitForClient`). Both are embedded here. Byte payloads are `List Nat`
(each element < 256), JS strings are Lean `String`, the remote execution
layer is an oracle `Env : String → Except String ExecResult` whose
`.error` constructor models the exec layer throwing a transport error.
-/

namespace SpriteFS

/-- `vscode.FileType`. -/
inductive FileType where
  | Unknown
  | File
  | Directory
  | SymbolicLink
deriving DecidableEq, Repr

/-- `vscode.FileChangeType`. -/
inductive FileChangeType where
  | Created
  | Changed
  | Deleted
deriving DecidableEq, Repr

/-- The four `vscode.FileSystemError` constructors used by the provider. -/
inductive FsError where
  | FileNotFound
  | FileExists
  | NoPermissions
  | Unavailable
deriving DecidableEq, Repr

/-- A `vscode.Uri` as the provider consumes it: authority + path. -/
structure Uri where
  authority : String
  path : String
deriving DecidableEq, Repr

/-- `parseUri` (spriteFileSystem.ts lines 33-37): authority is the sprite
name, the path defaults to `/` when empty. -/
def parseUri (uri : Uri) : String × String :=
  (uri.authority, if uri.path = "" then "/" else uri.path)

/-- Result of the execution layer as the public operations see it.
The first variant's `execWithRetry` has no `exitCode` field; operations
embedded from it simply ignore `exitCode`. -/
structure ExecResult where
  stdout : String
  stderr : String
  exitCode : Nat
deriving DecidableEq, Repr

/-- Oracle for the execution layer: what executing a given command string
yields. `.error msg` models the layer throwing (transport failure). -/
def Env : Type := String → Except String ExecResult

/- ## Base64 (Node `Buffer.toString('base64')` / browser `atob`) -/

/-- Character of the standard base64 alphabet at index `n` (`n < 64`). -/
def b64Char (n : Nat) : Char :=
  if n < 26 then Char.ofNat (65 + n)
  else if n < 52 then Char.ofNat (71 + n)
  else if n < 62 then Char.ofNat (n - 4)
  else if n = 62 then '+' else '/'

/-- Index of a character in the standard base64 alphabet, `none` for
characters outside it (`atob` raises on those). -/
def decodeChar (c : Char) : Option Nat :=
  let n := c.toNat
  if 65 ≤ n ∧ n ≤ 90 then some (n - 65)
  else if 97 ≤ n ∧ n ≤ 122 then some (n - 71)
  else if 48 ≤ n ∧ n ≤ 57 then some (n + 4)
  else if n = 43 then some 62
  else if n = 47 then some 63
  else none

/-- Padded standard base64 of a byte list: the encoding produced by
`Buffer.from(content).toString('base64')` (writeFile, lines 194 and 545). -/
def encodeB64 : List Nat → List Char
  | [] => []
  | [a] =>
      [b64Char (a / 4), b64Char (a % 4 * 16), '=', '=']
  | [a, b] =>
      [b64Char (a / 4), b64Char (a % 4 * 16 + b / 16), b64Char (b % 16 * 4), '=']
  | a :: b :: c :: rest =>
      b64Char (a / 4) :: b64Char (a % 4 * 16 + b / 16) ::
      b64Char (b % 16 * 4 + c / 64) :: b64Char (c % 64) :: encodeB64 rest

/-- Base64 decoding as `atob` performs it on whitespace-free input
(forgiving-base64: groups of four, `=` padding only at the very end, a
final group of two or three characters allowed without padding, leftover
bits discarded; any other shape or foreign character raises, modelled as
`none`). -/
def decodeB64 : List Char → Option (List Nat)
  | [] => some []
  | w :: x :: y :: z :: rest =>
      if z = '=' then
        if rest ≠ [] then none
        else if y = '=' then
          match decodeChar w, decodeChar x with
          | some a, some b => some [a * 4 + b / 16]
          | _, _ => none
        else
          match decodeChar w, decodeChar x, decodeChar y with
          | some a, some b, some c => some [a * 4 + b / 16, b % 16 * 16 + c / 4]
          | _, _, _ => none
      else
        match decodeChar w, decodeChar x, decodeChar y, decodeChar z with
        | some a, some b, some c, some d =>
            (decodeB64 rest).map
              (fun bs => (a * 4 + b / 16) :: (b % 16 * 16 + c / 4) :: (c % 4 * 64 + d) :: bs)
        | _, _, _, _ => none
  | [w, x] =>
      match decodeChar w, decodeChar x with
      | some a, some b => some [a * 4 + b / 16]
      | _, _ => none
  | [w, x, y] =>
      match decodeChar w, decodeChar x, decodeChar y with
      | some a, some b, some c => some [a * 4 + b / 16, b % 16 * 16 + c / 4]
      | _, _, _ => none
  | _ => none

theorem decodeChar_b64Char_fin : ∀ n : Fin 64, decodeChar (b64Char n.val) = some n.val := by
  decide

theorem decodeChar_b64Char (n : Nat) (h : n < 64) : decodeChar (b64Char n) = some n :=
  decodeChar_b64Char_fin ⟨n, h⟩

theorem b64Char_ne_pad (n : Nat) (h : n < 64) : b64Char n ≠ '=' := by
  interval_cases n <;> decide

/-- The base64 decoder inverts the encoder on every byte list. -/
theorem decodeB64_encodeB64 :
    ∀ (B : List Nat), (∀ b ∈ B, b < 256) → decodeB64 (encodeB64 B) = some B
  | [], _ => rfl
  | [a], h => by
      have ha : a < 256 := h a (by simp)
      simp only [encodeB64, decodeB64]
      rw [decodeChar_b64Char (a / 4) (by omega), decodeChar_b64Char (a % 4 * 16) (by omega)]
      simp
      omega
  | [a, b], h => by
      have ha : a < 256 := h a (by simp)
      have hb : b < 256 := h b (by simp)
      simp only [encodeB64, decodeB64]
      rw [if_neg (b64Char_ne_pad (b % 16 * 4) (by omega))]
      rw [decodeChar_b64Char (a / 4) (by omega),
          decodeChar_b64Char (a % 4 * 16 + b / 16) (by omega),
          decodeChar_b64Char (b % 16 * 4) (by omega)]
      simp
      constructor <;> omega
  | a :: b :: c :: rest, h => by
      have ha : a < 256 := h a (by simp)
      have hb : b < 256 := h b (by simp)
      have hc : c < 256 := h c (by simp)
      have ih := decodeB64_encodeB64 rest (fun x hx => h x (by simp [hx]))
      simp only [encodeB64, decodeB64]
      rw [if_neg (b64Char_ne_pad (c % 64) (by omega))]
      rw [decodeChar_b64Char (a / 4) (by omega),
          decodeChar_b64Char (a % 4 * 16 + b / 16) (by omega),
          decodeChar_b64Char (b % 16 * 4 + c / 64) (by omega),
          decodeChar_b64Char (c % 64) (by omega)]
      have h1 : a / 4 * 4 + (a % 4 * 16 + b / 16) / 16 = a := by omega
      have h2 : (a % 4 * 16 + b / 16) % 16 * 16 + (b % 16 * 4 + c / 64) / 4 = b := by omega
      have h3 : (b % 16 * 4 + c / 64) % 4 * 64 + c % 64 = c := by omega
      simp [ih, h1, h2, h3]

/- ## Whitespace stripping (`.replace(/\s/g, '')`) -/

/-- Characters matched by the JS regex class `\s`. -/
def isJsWhitespace (c : Char) : Bool :=
  let n := c.toNat
  n == 9 || n == 10 || n == 11 || n == 12 || n == 13 || n == 32 ||
  n == 160 || n == 5760 || (decide (8192 ≤ n) && decide (n ≤ 8202)) ||
  n == 8232 || n == 8233 || n == 8239 || n == 8287 || n == 12288 || n == 65279

/-- `stdout.replace(/\s/g, '')` (readFile, lines 151 and 501). -/
def stripWs (s : String) : String :=
  String.mk (s.data.filter (fun c => !(isJsWhitespace c)))

theorem data_mk (l : List Char) : (String.mk l).data = l := rfl

/-- JS `String.prototype.trim`: strip leading and trailing whitespace
(the JS whitespace class, which is what `.trim()` removes). Implemented
over the character list so that it is kernel-computable. -/
def jsTrim (s : String) : String :=
  String.mk (((s.data.dropWhile isJsWhitespace).reverse.dropWhile isJsWhitespace).reverse)

/- ## Command synthesis -/

/-- `base64 "${path}" 2>/dev/null` (readFile, line 150, first variant). -/
def readCmdV1 (p : String) : String := "base64 \"" ++ p ++ "\" 2>/dev/null"

/-- `test -f "${path}" && echo EXISTS` (readFile, line 154, first variant). -/
def checkFileCmdV1 (p : String) : String := "test -f \"" ++ p ++ "\" && echo EXISTS"

/-- `test -f "${path}" && echo EXISTS || echo NOTFOUND` (readFile, line 494,
safeExec variant). -/
def checkFileCmdV2 (p : String) : String :=
  "test -f \"" ++ p ++ "\" && echo EXISTS || echo NOTFOUND"

/-- `base64 "${path}"` (readFile, line 500, safeExec variant). -/
def readCmdV2 (p : String) : String := "base64 \"" ++ p ++ "\""

/- ## Client readiness gate (safeExec variant, lines 291-319) -/

/-- `waitForClient` (lines 309-319): true immediately when a client is
already installed, otherwise the race between the client-ready promise and
the `setTimeout`; `installAt = some t` means `setClient` runs `t` ms after
the wait starts, `none` means it never runs. -/
def waitForClient (clientSet : Bool) (installAt : Option Nat)
    (timeoutMs : Nat := 5000) : Bool :=
  if clientSet then true
  else
    match installAt with
    | some t => decide (t < timeoutMs)
    | none => false

/- ## readFile -/

/-- `readFile` of the first variant (lines 145-174): run the base64
command, strip whitespace; empty output triggers a `test -f` existence
check (empty file vs missing file); otherwise `atob`-decode. A transport
error or a decode failure is caught and classified `Unavailable`. -/
def readFileV1 (env : Env) (uri : Uri) : Except FsError (List Nat) :=
  match env (readCmdV1 (parseUri uri).2) with
  | .error _ => .error .Unavailable
  | .ok r =>
    if (stripWs r.stdout).data = [] then
      match env (checkFileCmdV1 (parseUri uri).2) with
      | .error _ => .error .Unavailable
      | .ok cr =>
          if jsTrim cr.stdout = "EXISTS" then .ok [] else .error .FileNotFound
    else
      match decodeB64 (stripWs r.stdout).data with
      | some bytes => .ok bytes
      | none => .error .Unavailable

/-- `readFile` of the safeExec variant (lines 479-521): wait for the
client (missing client ⇒ `FileNotFound`), check existence first, then
base64-read; empty stripped output is an empty file. -/
def readFileV2 (env : Env) (uri : Uri) (clientSet : Bool)
    (installAt : Option Nat) : Except FsError (List Nat) :=
  if !(waitForClient clientSet installAt) then .error .FileNotFound
  else
    match env (checkFileCmdV2 (parseUri uri).2) with
    | .error _ => .error .Unavailable
    | .ok cr =>
      if jsTrim cr.stdout ≠ "EXISTS" then .error .FileNotFound
      else
        match env (readCmdV2 (parseUri uri).2) with
        | .error _ => .error .Unavailable
        | .ok r =>
          if (stripWs r.stdout).data = [] then .ok []
          else
            match decodeB64 (stripWs r.stdout).data with
            | some bytes => .ok bytes
            | none => .error .Unavailable

theorem encodeB64_eq_nil (B : List Nat) : encodeB64 B = [] ↔ B = [] := by
  rcases B with _ | ⟨a, _ | ⟨b, _ | ⟨c, rest⟩⟩⟩ <;> simp [encodeB64]

/-- C1: for every byte payload `B` (including the zero-length payload),
the base64 encoding applied by `writeFile` and the whitespace-stripping
base64 decoding applied by `readFile` are mutually inverse: when the
remote serves back (a whitespace-wrapped form of) the base64 that
`writeFile` piped, and reports the written file as existing, `readFile`
returns exactly `B` — in both provider variants. -/
theorem c1_write_read_roundtrip (B : List Nat) (hB : ∀ b ∈ B, b < 256)
    (env : Env) (uri : Uri) (r1 rc rc2 r2 : ExecResult)
    (h1 : env (readCmdV1 (parseUri uri).2) = .ok r1)
    (h2 : stripWs r1.stdout = String.mk (encodeB64 B))
    (h3 : env (checkFileCmdV1 (parseUri uri).2) = .ok rc)
    (h4 : jsTrim rc.stdout = "EXISTS")
    (h5 : env (checkFileCmdV2 (parseUri uri).2) = .ok rc2)
    (h6 : jsTrim rc2.stdout = "EXISTS")
    (h7 : env (readCmdV2 (parseUri uri).2) = .ok r2)
    (h8 : stripWs r2.stdout = String.mk (encodeB64 B)) :
    decodeB64 (encodeB64 B) = some B
    ∧ readFileV1 env uri = .ok B
    ∧ readFileV2 env uri true none = .ok B := by
  refine ⟨decodeB64_encodeB64 B hB, ?_, ?_⟩
  · simp only [readFileV1, h1, h2, data_mk]
    by_cases hnil : B = []
    · subst hnil
      simp [encodeB64, h3, h4]
    · simp [encodeB64_eq_nil, hnil, decodeB64_encodeB64 B hB]
  · simp only [readFileV2, waitForClient]
    simp only [h5, h7, h8, data_mk]
    by_cases hnil : B = []
    · subst hnil
      simp [encodeB64, h6]
    · simp [encodeB64_eq_nil, hnil, decodeB64_encodeB64 B hB, h6]

/-- Remote oracle for the C1 witness: the base64 read commands return the
stored content (`"Hey!"` encoded, with a trailing newline as the remote
`base64` utility emits), every other command reports existence. -/
def envC1 : Env := fun c =>
  if c = readCmdV1 "/tmp/x" ∨ c = readCmdV2 "/tmp/x" then .ok ⟨"SGV5IQ==\n", "", 0⟩
  else .ok ⟨"EXISTS\n", "", 0⟩

theorem c1_write_read_roundtrip_witness :
    readFileV1 envC1 ⟨"s1", "/tmp/x"⟩ = .ok [72, 101, 121, 33]
    ∧ readFileV2 envC1 ⟨"s1", "/tmp/x"⟩ true none = .ok [72, 101, 121, 33] := by
  have h := c1_write_read_roundtrip [72, 101, 121, 33] (by decide) envC1
    ⟨"s1", "/tmp/x"⟩ ⟨"SGV5IQ==\n", "", 0⟩ ⟨"EXISTS\n", "", 0⟩
    ⟨"EXISTS\n", "", 0⟩ ⟨"SGV5IQ==\n", "", 0⟩
    (by rfl) (by decide) (by rfl) (by decide) (by rfl) (by decide)
    (by rfl) (by decide)
  exact ⟨h.2.1, h.2.2⟩

/- ## The execution layer itself (execWithRetry, lines 39-58; safeExec,
lines 341-364) -/

/-- One attempt of `sprite.exec`: it either resolves with stdout/stderr or
rejects (throws). -/
inductive Attempt where
  | ok (stdout stderr : String)
  | err (msg : String)
deriving DecidableEq, Repr

/-- `execWithRetry` (lines 39-58) over the oracle list of what each
successive `sprite.exec` attempt would do (the code makes
`retries + 1 = 3` attempts by default, so the list has length 3): return
the first resolving attempt's output; if every attempt rejects, rethrow
the last error. -/
def execWithRetry : List Attempt → Except String (String × String)
  | .ok o e :: _ => .ok (o, e)
  | [.err m] => .error m
  | .err _ :: a :: rest => execWithRetry (a :: rest)
  | [] => .error ""

/-- What a single `sprite.exec` call does in the safeExec variant: resolve,
or reject with an error object optionally carrying captured
`stdout`/`stderr`/`exitCode` fields (`none` models `undefined`). -/
inductive ExecOutcome where
  | success (stdout stderr : String)
  | failure (stdout stderr : Option String) (exitCode : Option Nat) (msg : String)
deriving DecidableEq, Repr

/-- `safeExec` (lines 341-364): a resolving call yields exit code 0; a
rejection whose error object carries `stdout` or `stderr` (the command ran
but exited non-zero) is coerced into a normal result — with JS truthiness
`error.exitCode || 1` turning both `undefined` and `0` into 1 — and only a
rejection with no captured output at all is re-thrown. -/
def safeExec : ExecOutcome → Except String ExecResult
  | .success o e => .ok ⟨o, e, 0⟩
  | .failure so se ec m =>
      if so.isSome || se.isSome then
        .ok ⟨so.getD "", se.getD "",
             match ec with
             | some n => if n = 0 then 1 else n
             | none => 1⟩
      else .error m

/-- C2: the execution layer never surfaces a raw transport exception for a
run that produced output. `safeExec` returns a normal execution result
whenever the rejection carries captured stdout/stderr (non-zero exit) and
re-throws exactly when nothing was captured; `execWithRetry` returns
normally whenever some attempt resolved, and throws only when every
attempt rejected (the call could not run at all). -/
theorem c2_exec_layer_never_leaks (so se : Option String) (ec : Option Nat)
    (m : String) (o e : String) (attempts : List Attempt) :
    ((so.isSome || se.isSome) = true →
        ∃ res, safeExec (.failure so se ec m) = .ok res)
    ∧ safeExec (.failure none none ec m) = .error m
    ∧ safeExec (.success o e) = .ok ⟨o, e, 0⟩
    ∧ (∀ m', execWithRetry attempts = .error m' →
        ∀ a ∈ attempts, ∃ ms, a = .err ms)
    ∧ (∀ pre post, (∀ a ∈ pre, ∃ ms, a = .err ms) →
        execWithRetry (pre ++ .ok o e :: post) = .ok (o, e)) := by
  refine ⟨?_, by simp [safeExec], rfl, ?_, ?_⟩
  · intro hsome
    exact ⟨⟨so.getD "", se.getD "",
            match ec with
            | some n => if n = 0 then 1 else n
            | none => 1⟩, by simp [safeExec, hsome]⟩
  · induction attempts with
    | nil => intro m' _ a ha; simp at ha
    | cons hd tl ih =>
      intro m' hrun a ha
      cases hd with
      | ok o1 e1 => simp [execWithRetry] at hrun
      | err m1 =>
        rcases List.mem_cons.mp ha with rfl | ha2
        · exact ⟨m1, rfl⟩
        · cases tl with
          | nil => simp at ha2
          | cons hd2 tl2 =>
            exact ih m' (by simpa [execWithRetry] using hrun) a ha2
  · intro pre post hpre
    induction pre with
    | nil => simp [execWithRetry]
    | cons hd tl ih =>
      obtain ⟨ms, rfl⟩ := hpre hd (by simp)
      have htl := ih (fun a ha => hpre a (by simp [ha]))
      cases tl with
      | nil => simp [execWithRetry]
      | cons hd2 tl2 =>
          simp only [List.cons_append, execWithRetry]
          exact htl

theorem c2_exec_layer_never_leaks_witness :
    (∃ res, safeExec (.failure (some "partial out") none (some 3) "exit 3") = .ok res)
    ∧ execWithRetry [.err "conn reset", .err "conn reset", .ok "done" ""] = .ok ("done", "") := by
  have h := c2_exec_layer_never_leaks (some "partial out") none (some 3)
    "exit 3" "done" "" [.err "conn reset", .err "conn reset", .ok "done" ""]
  refine ⟨h.1 (by decide), ?_⟩
  have := h.2.2.2.2 [.err "conn reset", .err "conn reset"] []
    (by intro a ha; fin_cases ha <;> exact ⟨_, rfl⟩)
  simpa using this

/- ## Mutating operations, with their observable event trace -/

/-- Observable steps of one operation: remote command executions and
`_emitter.fire` notifications, in program order. -/
inductive Ev where
  | exec (cmd : String)
  | fire (changes : List (FileChangeType × Uri))
deriving DecidableEq, Repr

def isExec : Ev → Bool
  | .exec _ => true
  | .fire _ => false

/-- `test -e "${path}" && echo EXISTS || echo NOTEXISTS` (writeFile lines
181 and 532, rename line 617). -/
def existsCmd (p : String) : String :=
  "test -e \"" ++ p ++ "\" && echo EXISTS || echo NOTEXISTS"

/-- `test -e "${newPath}" && echo EXISTS` (rename, line 254, first
variant). -/
def renameExistsCmdV1 (p : String) : String := "test -e \"" ++ p ++ "\" && echo EXISTS"

/-- `mkdir -p "${path}"` (writeFile line 192, createDirectory lines 215
and 570). -/
def mkdirCmd (p : String) : String := "mkdir -p \"" ++ p ++ "\""

/-- `echo "${base64Content}" | base64 -d > "${path}"` (writeFile, lines
195 and 546). -/
def writeCmd (p b64 : String) : String :=
  "echo \"" ++ b64 ++ "\" | base64 -d > \"" ++ p ++ "\""

/-- `rm ${flags} "${path}"` (delete, lines 232-233 and 591-592). -/
def rmCmd (recursive : Bool) (p : String) : String :=
  "rm " ++ (if recursive then "-rf" else "-f") ++ " \"" ++ p ++ "\""

/-- `mv "${oldPath}" "${newPath}"` (rename, lines 260 and 623). -/
def mvCmd (oldP newP : String) : String :=
  "mv \"" ++ oldP ++ "\" \"" ++ newP ++ "\""

/-- `path.substring(0, path.lastIndexOf('/')) || '/'` (writeFile, lines
191 and 542): everything before the last `/`, defaulting to `/`. -/
def parentDir (p : String) : String :=
  let r := p.data.reverse.dropWhile (fun c => c ≠ '/')
  let pre := (r.drop 1).reverse
  if pre = [] then "/" else String.mk pre

/-- Whether the `test -e` probe of `writeFile` reports the path as
existing under a given oracle. -/
def pathExistsIn (env : Env) (p : String) : Bool :=
  match env (existsCmd p) with
  | .ok r => jsTrim r.stdout == "EXISTS"
  | .error _ => false

/-- `writeFile` (lines 176-208 and 523-559; both variants share this body
over their execution layer): probe existence, enforce the
create/overwrite policy, ensure the parent directory, pipe the base64
payload through `base64 -d`, then fire Changed/Created. `clientSet =
false` models the missing-client throw (`Unavailable`, lines 21-22 and
527-529). -/
def writeFile (env : Env) (uri : Uri) (content : List Nat)
    (create overwrite clientSet : Bool) : Except FsError Unit × List Ev :=
  if !clientSet then (.error .Unavailable, [])
  else
    match env (existsCmd (parseUri uri).2) with
    | .error _ => (.error .Unavailable, [.exec (existsCmd (parseUri uri).2)])
    | .ok r =>
      if (jsTrim r.stdout == "EXISTS") && !overwrite then
        (.error .FileExists, [.exec (existsCmd (parseUri uri).2)])
      else if !(jsTrim r.stdout == "EXISTS") && !create then
        (.error .FileNotFound, [.exec (existsCmd (parseUri uri).2)])
      else
        match env (mkdirCmd (parentDir (parseUri uri).2)) with
        | .error _ =>
            (.error .Unavailable,
             [.exec (existsCmd (parseUri uri).2),
              .exec (mkdirCmd (parentDir (parseUri uri).2))])
        | .ok _ =>
          match env (writeCmd (parseUri uri).2 (String.mk (encodeB64 content))) with
          | .error _ =>
              (.error .Unavailable,
               [.exec (existsCmd (parseUri uri).2),
                .exec (mkdirCmd (parentDir (parseUri uri).2)),
                .exec (writeCmd (parseUri uri).2 (String.mk (encodeB64 content)))])
          | .ok _ =>
              (.ok (),
               [.exec (existsCmd (parseUri uri).2),
                .exec (mkdirCmd (parentDir (parseUri uri).2)),
                .exec (writeCmd (parseUri uri).2 (String.mk (encodeB64 content))),
                .fire [((if jsTrim r.stdout == "EXISTS" then .Changed else .Created), uri)]])

def startsWithChars : List Char → List Char → Bool
  | [], _ => true
  | _ :: _, [] => false
  | a :: as, b :: bs => a == b && startsWithChars as bs

/-- JS `String.prototype.includes`. -/
def containsSub (s sub : String) : Bool := go s.data
where
  go : List Char → Bool
    | [] => sub.data.isEmpty
    | c :: rest => startsWithChars sub.data (c :: rest) || go rest

/-- `createDirectory` of the first variant (lines 210-225): recursive
mkdir; a nonempty stderr containing `error` is thrown and classified
`Unavailable`; otherwise fire Created. -/
def createDirectoryV1 (env : Env) (uri : Uri) (clientSet : Bool) :
    Except FsError Unit × List Ev :=
  if !clientSet then (.error .Unavailable, [])
  else
    match env (mkdirCmd (parseUri uri).2) with
    | .error _ => (.error .Unavailable, [.exec (mkdirCmd (parseUri uri).2)])
    | .ok r =>
      if !(r.stderr == "") && containsSub r.stderr "error" then
        (.error .Unavailable, [.exec (mkdirCmd (parseUri uri).2)])
      else
        (.ok (), [.exec (mkdirCmd (parseUri uri).2), .fire [(.Created, uri)]])

/-- `createDirectory` of the safeExec variant (lines 561-580): a non-zero
exit code is thrown and classified `Unavailable`; otherwise fire Created. -/
def createDirectoryV2 (env : Env) (uri : Uri) (clientSet : Bool) :
    Except FsError Unit × List Ev :=
  if !clientSet then (.error .Unavailable, [])
  else
    match env (mkdirCmd (parseUri uri).2) with
    | .error _ => (.error .Unavailable, [.exec (mkdirCmd (parseUri uri).2)])
    | .ok r =>
      if !(r.exitCode == 0) then
        (.error .Unavailable, [.exec (mkdirCmd (parseUri uri).2)])
      else
        (.ok (), [.exec (mkdirCmd (parseUri uri).2), .fire [(.Created, uri)]])

/-- `delete` (lines 227-240 and 582-599, identical bodies): `rm` with
`-rf`/`-f`, then fire Deleted; any failure is `Unavailable`. -/
def delete (env : Env) (uri : Uri) (recursive clientSet : Bool) :
    Except FsError Unit × List Ev :=
  if !clientSet then (.error .Unavailable, [])
  else
    match env (rmCmd recursive (parseUri uri).2) with
    | .error _ => (.error .Unavailable, [.exec (rmCmd recursive (parseUri uri).2)])
    | .ok _ =>
        (.ok (), [.exec (rmCmd recursive (parseUri uri).2), .fire [(.Deleted, uri)]])

/-- `rename` of the first variant (lines 242-273): cross-sprite renames
are rejected with `NoPermissions` before any remote call; without
`overwrite` the destination is probed and `FileExists` raised; then `mv`,
then fire Deleted(old) + Created(new). -/
def renameV1 (env : Env) (oldUri newUri : Uri) (overwrite clientSet : Bool) :
    Except FsError Unit × List Ev :=
  if !((parseUri oldUri).1 == (parseUri newUri).1) then (.error .NoPermissions, [])
  else if !clientSet then (.error .Unavailable, [])
  else if !overwrite then
    match env (renameExistsCmdV1 (parseUri newUri).2) with
    | .error _ => (.error .Unavailable, [.exec (renameExistsCmdV1 (parseUri newUri).2)])
    | .ok r =>
      if jsTrim r.stdout == "EXISTS" then
        (.error .FileExists, [.exec (renameExistsCmdV1 (parseUri newUri).2)])
      else
        match env (mvCmd (parseUri oldUri).2 (parseUri newUri).2) with
        | .error _ =>
            (.error .Unavailable,
             [.exec (renameExistsCmdV1 (parseUri newUri).2),
              .exec (mvCmd (parseUri oldUri).2 (parseUri newUri).2)])
        | .ok _ =>
            (.ok (),
             [.exec (renameExistsCmdV1 (parseUri newUri).2),
              .exec (mvCmd (parseUri oldUri).2 (parseUri newUri).2),
              .fire [(.Deleted, oldUri), (.Created, newUri)]])
  else
    match env (mvCmd (parseUri oldUri).2 (parseUri newUri).2) with
    | .error _ =>
        (.error .Unavailable, [.exec (mvCmd (parseUri oldUri).2 (parseUri newUri).2)])
    | .ok _ =>
        (.ok (),
         [.exec (mvCmd (parseUri oldUri).2 (parseUri newUri).2),
          .fire [(.Deleted, oldUri), (.Created, newUri)]])

/-- `rename` of the safeExec variant (lines 601-636): same shape, with the
`EXISTS || NOTEXISTS` destination probe. -/
def renameV2 (env : Env) (oldUri newUri : Uri) (overwrite clientSet : Bool) :
    Except FsError Unit × List Ev :=
  if !((parseUri oldUri).1 == (parseUri newUri).1) then (.error .NoPermissions, [])
  else if !clientSet then (.error .Unavailable, [])
  else if !overwrite then
    match env (existsCmd (parseUri newUri).2) with
    | .error _ => (.error .Unavailable, [.exec (existsCmd (parseUri newUri).2)])
    | .ok r =>
      if jsTrim r.stdout == "EXISTS" then
        (.error .FileExists, [.exec (existsCmd (parseUri newUri).2)])
      else
        match env (mvCmd (parseUri oldUri).2 (parseUri newUri).2) with
        | .error _ =>
            (.error .Unavailable,
             [.exec (existsCmd (parseUri newUri).2),
              .exec (mvCmd (parseUri oldUri).2 (parseUri newUri).2)])
        | .ok _ =>
            (.ok (),
             [.exec (existsCmd (parseUri newUri).2),
              .exec (mvCmd (parseUri oldUri).2 (parseUri newUri).2),
              .fire [(.Deleted, oldUri), (.Created, newUri)]])
  else
    match env (mvCmd (parseUri oldUri).2 (parseUri newUri).2) with
    | .error _ =>
        (.error .Unavailable, [.exec (mvCmd (parseUri oldUri).2 (parseUri newUri).2)])
    | .ok _ =>
        (.ok (),
         [.exec (mvCmd (parseUri oldUri).2 (parseUri newUri).2),
          .fire [(.Deleted, oldUri), (.Created, newUri)]])

/-- The change-notification discipline: a successful run's trace is remote
executions followed by exactly one `fire` with the given payload, last;
a failed run's trace contains no `fire` at all. -/
def firesExactly (out : Except FsError Unit × List Ev)
    (payload : List (FileChangeType × Uri)) : Prop :=
  match out with
  | (.ok _, tr) => ∃ pre, tr = pre ++ [Ev.fire payload] ∧ ∀ e ∈ pre, isExec e = true
  | (.error _, tr) => ∀ e ∈ tr, isExec e = true

theorem firesExactly_err (e : FsError) (cs : List String)
    (pl : List (FileChangeType × Uri)) :
    firesExactly (.error e, cs.map Ev.exec) pl := by
  intro x hx
  obtain ⟨c, _, rfl⟩ := List.mem_map.mp hx
  rfl

theorem firesExactly_ok (cs : List String) (pl : List (FileChangeType × Uri)) :
    firesExactly (.ok (), cs.map Ev.exec ++ [Ev.fire pl]) pl := by
  refine ⟨cs.map Ev.exec, rfl, ?_⟩
  intro x hx
  obtain ⟨c, _, rfl⟩ := List.mem_map.mp hx
  rfl

theorem fe_err0 (e : FsError) (pl : List (FileChangeType × Uri)) :
    firesExactly (.error e, ([] : List Ev)) pl := firesExactly_err e [] pl

theorem fe_err1 (e : FsError) (c1 : String) (pl : List (FileChangeType × Uri)) :
    firesExactly (.error e, [Ev.exec c1]) pl := firesExactly_err e [c1] pl

theorem fe_err2 (e : FsError) (c1 c2 : String) (pl : List (FileChangeType × Uri)) :
    firesExactly (.error e, [Ev.exec c1, Ev.exec c2]) pl := firesExactly_err e [c1, c2] pl

theorem fe_err3 (e : FsError) (c1 c2 c3 : String) (pl : List (FileChangeType × Uri)) :
    firesExactly (.error e, [Ev.exec c1, Ev.exec c2, Ev.exec c3]) pl :=
  firesExactly_err e [c1, c2, c3] pl

theorem fe_ok1 (c1 : String) (pl : List (FileChangeType × Uri)) :
    firesExactly (.ok (), [Ev.exec c1, Ev.fire pl]) pl := firesExactly_ok [c1] pl

theorem fe_ok2 (c1 c2 : String) (pl : List (FileChangeType × Uri)) :
    firesExactly (.ok (), [Ev.exec c1, Ev.exec c2, Ev.fire pl]) pl :=
  firesExactly_ok [c1, c2] pl

theorem fe_ok3 (c1 c2 c3 : String) (pl : List (FileChangeType × Uri)) :
    firesExactly (.ok (), [Ev.exec c1, Ev.exec c2, Ev.exec c3, Ev.fire pl]) pl :=
  firesExactly_ok [c1, c2, c3] pl

/-- C3: every mutating operation — `writeFile` (both variants share the
body), `createDirectory` (both variants), `delete`, `rename` (both
variants) — emits its change notification with the correct kind and
affected address(es) exactly once, strictly after all its remote calls,
and only when it succeeds; a failed run emits none. -/
theorem c3_notification_discipline (env : Env) (uri oldUri newUri : Uri)
    (content : List Nat) (create overwrite recursive ow clientSet : Bool) :
    firesExactly (writeFile env uri content create overwrite clientSet)
      [((if pathExistsIn env (parseUri uri).2 then FileChangeType.Changed
         else FileChangeType.Created), uri)]
    ∧ firesExactly (createDirectoryV1 env uri clientSet) [(.Created, uri)]
    ∧ firesExactly (createDirectoryV2 env uri clientSet) [(.Created, uri)]
    ∧ firesExactly (delete env uri recursive clientSet) [(.Deleted, uri)]
    ∧ firesExactly (renameV1 env oldUri newUri ow clientSet)
        [(.Deleted, oldUri), (.Created, newUri)]
    ∧ firesExactly (renameV2 env oldUri newUri ow clientSet)
        [(.Deleted, oldUri), (.Created, newUri)] := by
  refine ⟨?_, ?_, ?_, ?_, ?_, ?_⟩
  · unfold writeFile
    repeat' split
    all_goals
      first
        | exact fe_err0 _ _
        | exact fe_err1 _ _ _
        | exact fe_err2 _ _ _ _
        | exact fe_err3 _ _ _ _ _
        | exact fe_ok3 _ _ _ _
        | simp_all [pathExistsIn]
  · unfold createDirectoryV1
    repeat' split
    all_goals
      first
        | exact fe_err0 _ _
        | exact fe_err1 _ _ _
        | exact fe_ok1 _ _
  · unfold createDirectoryV2
    repeat' split
    all_goals
      first
        | exact fe_err0 _ _
        | exact fe_err1 _ _ _
        | exact fe_ok1 _ _
  · unfold delete
    repeat' split
    all_goals
      first
        | exact fe_err0 _ _
        | exact fe_err1 _ _ _
        | exact fe_ok1 _ _
  · unfold renameV1
    repeat' split
    all_goals
      first
        | exact fe_err0 _ _
        | exact fe_err1 _ _ _
        | exact fe_err2 _ _ _ _
        | exact fe_ok1 _ _
        | exact fe_ok2 _ _ _
  · unfold renameV2
    repeat' split
    all_goals
      first
        | exact fe_err0 _ _
        | exact fe_err1 _ _ _
        | exact fe_err2 _ _ _ _
        | exact fe_ok1 _ _
        | exact fe_ok2 _ _ _

/-- C5: `writeFile` decides the create/overwrite policy from the
existence probe before writing anything: existing path with
`overwrite:false` always fails `FileExists`, missing path with
`create:false` always fails `FileNotFound` (for either value of the other
flag), and in both cases the trace holds only the probe — no `mkdir` and
no write command ran. -/
theorem c5_writeFile_policy (env : Env) (uri : Uri) (content : List Nat)
    (create overwrite : Bool) (r : ExecResult)
    (h1 : env (existsCmd (parseUri uri).2) = .ok r) :
    (jsTrim r.stdout = "EXISTS" → overwrite = false →
      writeFile env uri content create overwrite true =
        (.error .FileExists, [.exec (existsCmd (parseUri uri).2)]))
    ∧ (jsTrim r.stdout ≠ "EXISTS" → create = false →
      writeFile env uri content create overwrite true =
        (.error .FileNotFound, [.exec (existsCmd (parseUri uri).2)])) := by
  constructor
  · intro hex hov
    subst hov
    simp only [writeFile, h1]
    simp [hex]
  · intro hex hcr
    subst hcr
    simp only [writeFile, h1]
    simp [hex]

/-- Oracle whose existence probes report every path as present. -/
def envExists : Env := fun _ => .ok ⟨"EXISTS\n", "", 0⟩

/-- Oracle whose existence probes report every path as absent. -/
def envMissing : Env := fun _ => .ok ⟨"NOTEXISTS\n", "", 0⟩

theorem c5_writeFile_policy_witness :
    writeFile envExists ⟨"s1", "/a/b"⟩ [1, 2] true false true =
      (.error .FileExists, [.exec (existsCmd "/a/b")])
    ∧ writeFile envMissing ⟨"s1", "/a/b"⟩ [1, 2] false true true =
      (.error .FileNotFound, [.exec (existsCmd "/a/b")]) :=
  ⟨(c5_writeFile_policy envExists ⟨"s1", "/a/b"⟩ [1, 2] true false
      ⟨"EXISTS\n", "", 0⟩ rfl).1 (by decide) rfl,
   (c5_writeFile_policy envMissing ⟨"s1", "/a/b"⟩ [1, 2] false true
      ⟨"NOTEXISTS\n", "", 0⟩ rfl).2 (by decide) rfl⟩

/-- C6: a rename whose source and destination name different sprites
fails `NoPermissions` — in both variants, before any remote call (the
trace is empty). -/
theorem c6_cross_sprite_rename (env : Env) (oldUri newUri : Uri)
    (overwrite clientSet : Bool) (h : oldUri.authority ≠ newUri.authority) :
    renameV1 env oldUri newUri overwrite clientSet = (.error .NoPermissions, [])
    ∧ renameV2 env oldUri newUri overwrite clientSet = (.error .NoPermissions, []) := by
  have h' : ((parseUri oldUri).1 == (parseUri newUri).1) = false := by
    simp [parseUri, h]
  constructor <;> simp [renameV1, renameV2, h']

theorem c6_cross_sprite_rename_witness :
    renameV1 envExists ⟨"alpha", "/x"⟩ ⟨"beta", "/y"⟩ true true =
      (.error .NoPermissions, [])
    ∧ renameV2 envExists ⟨"alpha", "/x"⟩ ⟨"beta", "/y"⟩ true true =
      (.error .NoPermissions, []) :=
  c6_cross_sprite_rename envExists ⟨"alpha", "/x"⟩ ⟨"beta", "/y"⟩ true true
    (by decide)

/- ## stat -/

/-- JS `String.prototype.split(sep)` over character lists (`sep` a single
character): `"" ↦ [""]`, separators at the ends produce empty fields. -/
def splitOnChar (sep : Char) : List Char → List (List Char)
  | [] => [[]]
  | c :: rest =>
    if c = sep then [] :: splitOnChar sep rest
    else
      match splitOnChar sep rest with
      | h :: t => (c :: h) :: t
      | [] => [[c]]

/-- `parseInt(s, 10)` on a digit run: `none` is JS `NaN`. -/
def parseIntDigits (l : List Char) : Option Nat :=
  let ds := l.takeWhile Char.isDigit
  if ds = [] then none
  else some (ds.foldl (fun a c => a * 10 + (c.toNat - 48)) 0)

/-- JS `parseInt(s, 10)`: skip leading whitespace, optional sign, then the
longest digit prefix; no digits ⇒ `NaN` (`none`). -/
def parseIntJS (s : String) : Option Int :=
  match s.data.dropWhile isJsWhitespace with
  | '-' :: rest => (parseIntDigits rest).map (fun n => -(n : Int))
  | '+' :: rest => (parseIntDigits rest).map (fun n => (n : Int))
  | l => (parseIntDigits l).map (fun n => (n : Int))

/-- JS `v || d` for numbers: `NaN` and `0` fall back to the default. -/
def jsOr (v : Option Int) (d : Int) : Int :=
  match v with
  | none => d
  | some n => if n = 0 then d else n

/-- `vscode.FileStat`. -/
structure FileStat where
  type : FileType
  ctime : Int
  mtime : Int
  size : Int
deriving DecidableEq, Repr

/-- Parsing of the `stat -c '%F|%s|%Y|%X'` output (lines 76-90 and
400-414): split on `|`, `parseInt` the numeric fields (`|| 0` for size,
`* 1000 || Date.now()` for the times — `now` is the `Date.now()` value),
substring-match the kind. -/
def parseStatOutput (output : String) (now : Int) : FileStat :=
  let parts := (splitOnChar '|' output.data).map String.mk
  let typeStr := parts.getD 0 ""
  let sizeStr := parts.getD 1 ""
  let mtimeStr := parts.getD 2 ""
  let ctimeStr := parts.getD 3 ""
  let size := jsOr (parseIntJS sizeStr) 0
  let mtime := jsOr ((parseIntJS mtimeStr).map (fun n => n * 1000)) now
  let ctime := jsOr ((parseIntJS ctimeStr).map (fun n => n * 1000)) now
  let type :=
    if containsSub typeStr "directory" then FileType.Directory
    else if containsSub typeStr "regular" || containsSub typeStr "file" then FileType.File
    else if containsSub typeStr "symbolic link" then FileType.SymbolicLink
    else FileType.Unknown
  ⟨type, ctime, mtime, size⟩

/-- `stat -c '%F|%s|%Y|%X' "${path}" 2>/dev/null || echo "NOTFOUND"`
(line 69, first variant). -/
def statCmdV1 (p : String) : String :=
  "stat -c '%F|%s|%Y|%X' \"" ++ p ++ "\" 2>/dev/null || echo \"NOTFOUND\""

/-- `if [ -e "${path}" ]; then stat -c '%F|%s|%Y|%X' "${path}"; else echo
"NOTFOUND"; fi` (line 391, safeExec variant). -/
def statCmdV2 (p : String) : String :=
  "if [ -e \"" ++ p ++ "\" ]; then stat -c '%F|%s|%Y|%X' \"" ++ p ++
  "\"; else echo \"NOTFOUND\"; fi"

/-- `stat` of the first variant (lines 64-98): no client ⇒ `getSprite`
throws `Unavailable`; transport failure ⇒ `Unavailable`; `NOTFOUND`
sentinel or empty output ⇒ `FileNotFound`; otherwise parse. -/
def statV1 (env : Env) (uri : Uri) (clientSet : Bool) (now : Int) :
    Except FsError FileStat :=
  if !clientSet then .error .Unavailable
  else
    match env (statCmdV1 (parseUri uri).2) with
    | .error _ => .error .Unavailable
    | .ok r =>
      if jsTrim r.stdout = "NOTFOUND" ∨ jsTrim r.stdout = "" then .error .FileNotFound
      else .ok (parseStatOutput (jsTrim r.stdout) now)

/-- `stat` of the safeExec variant (lines 370-423): wait for the client
(readiness gate) and throw `FileNotFound` when no sprite is available
after the wait; then as in the first variant. -/
def statV2 (env : Env) (uri : Uri) (clientSet : Bool) (installAt : Option Nat)
    (now : Int) : Except FsError FileStat :=
  if !(waitForClient clientSet installAt) then .error .FileNotFound
  else
    match env (statCmdV2 (parseUri uri).2) with
    | .error _ => .error .Unavailable
    | .ok r =>
      if jsTrim r.stdout = "NOTFOUND" ∨ jsTrim r.stdout = "" then .error .FileNotFound
      else .ok (parseStatOutput (jsTrim r.stdout) now)

/-- C7: in both variants, a `stat` whose remote output is the `NOTFOUND`
sentinel or empty fails with `FileNotFound`; a transport failure of the
executed command is classified `Unavailable`; and every error `stat` can
produce is one of the classified `FileNotFound`/`Unavailable` — never an
unclassified throw. -/
theorem c7_stat_error_taxonomy (env : Env) (uri : Uri) (clientSet : Bool)
    (installAt : Option Nat) (now : Int) :
    (∀ r, env (statCmdV1 (parseUri uri).2) = .ok r →
      (jsTrim r.stdout = "NOTFOUND" ∨ jsTrim r.stdout = "") →
      statV1 env uri true now = .error .FileNotFound)
    ∧ (∀ r, env (statCmdV2 (parseUri uri).2) = .ok r →
      (jsTrim r.stdout = "NOTFOUND" ∨ jsTrim r.stdout = "") →
      statV2 env uri true none now = .error .FileNotFound)
    ∧ (∀ m, env (statCmdV1 (parseUri uri).2) = .error m →
      statV1 env uri true now = .error .Unavailable)
    ∧ (∀ m, env (statCmdV2 (parseUri uri).2) = .error m →
      statV2 env uri true none now = .error .Unavailable)
    ∧ (∀ e, statV1 env uri clientSet now = .error e →
      e = .FileNotFound ∨ e = .Unavailable)
    ∧ (∀ e, statV2 env uri clientSet installAt now = .error e →
      e = .FileNotFound ∨ e = .Unavailable) := by
  refine ⟨?_, ?_, ?_, ?_, ?_, ?_⟩
  · intro r hr hs
    simp [statV1, hr, hs, waitForClient]
  · intro r hr hs
    simp [statV2, hr, hs, waitForClient]
  · intro m hm
    simp [statV1, hm]
  · intro m hm
    simp [statV2, hm, waitForClient]
  · intro e he
    unfold statV1 at he
    repeat' split at he
    all_goals simp_all
  · intro e he
    unfold statV2 at he
    repeat' split at he
    all_goals simp_all

/-- Oracle whose stat probe reports the sentinel: the path is missing. -/
def envNotFound : Env := fun _ => .ok ⟨"NOTFOUND\n", "", 0⟩

theorem c7_stat_error_taxonomy_witness :
    statV1 envNotFound ⟨"s1", "/missing"⟩ true 0 = .error .FileNotFound
    ∧ statV2 envNotFound ⟨"s1", "/missing"⟩ true none 0 = .error .FileNotFound := by
  have h := c7_stat_error_taxonomy envNotFound ⟨"s1", "/missing"⟩ true none 0
  exact ⟨h.1 ⟨"NOTFOUND\n", "", 0⟩ rfl (Or.inl (by decide)),
         h.2.1 ⟨"NOTFOUND\n", "", 0⟩ rfl (Or.inl (by decide))⟩

/-- C8: the stat output `"directory|4096|1700000000|1700000100"` parses to
a directory of size 4096 with mtime 1700000000000 ms and ctime
1700000100000 ms, whatever `Date.now()` would have returned. -/
theorem c8_stat_parse_scenario (now : Int) :
    parseStatOutput "directory|4096|1700000000|1700000100" now =
      ⟨.Directory, 1700000100000, 1700000000000, 4096⟩ := by
  rfl

/- ## C4: the readiness window -/

/-- Oracle serving a directory stat line for every command. -/
def envDir : Env := fun _ => .ok ⟨"directory|4096|1700000000|1700000100\n", "", 0⟩

/-- C4, counterexample to the claim as stated: with no registry ever
installed, the safeExec-variant `stat` that waited out the readiness gate
reports `FileNotFound` (line 384), not `Unavailable` as the claim says. -/
theorem c4_timeout_reports_notfound_not_unavailable :
    statV2 envDir ⟨"s1", "/a"⟩ false none 0 = .error .FileNotFound
    ∧ FsError.FileNotFound ≠ FsError.Unavailable := by
  exact ⟨rfl, by decide⟩

/-- C4, amended: a session-acquisition attempt made before any client is
installed waits on the readiness gate with its fixed 5000 ms default
timeout: an installation 100 ms later wins the race and the operation
proceeds and succeeds, while with no installation the gate reports false
and the adapter fails with `FileNotFound` (not `Unavailable`) instead of
blocking indefinitely. -/
theorem c4_readiness_window (env : Env) (uri : Uri) (now : Int) (r : ExecResult)
    (h1 : env (statCmdV2 (parseUri uri).2) = .ok r)
    (h2 : ¬(jsTrim r.stdout = "NOTFOUND" ∨ jsTrim r.stdout = "")) :
    waitForClient false (some 100) = true
    ∧ statV2 env uri false (some 100) now =
        .ok (parseStatOutput (jsTrim r.stdout) now)
    ∧ (∀ env2 : Env, statV2 env2 uri false none now = .error .FileNotFound)
    ∧ waitForClient false none = false := by
  refine ⟨rfl, ?_, fun env2 => rfl, rfl⟩
  simp [statV2, waitForClient, h1, h2]

theorem c4_readiness_window_witness :
    statV2 envDir ⟨"s1", "/a"⟩ false (some 100) 0 =
      .ok ⟨.Directory, 1700000100000, 1700000000000, 4096⟩
    ∧ statV2 envDir ⟨"s1", "/a"⟩ false none 0 = .error .FileNotFound := by
  have h := c4_readiness_window envDir ⟨"s1", "/a"⟩ 0
    ⟨"directory|4096|1700000000|1700000100\n", "", 0⟩ rfl (by decide)
  exact ⟨h.2.1.trans (congrArg Except.ok (by decide)), h.2.2.1 envDir⟩

/- ## readDirectory -/

/-- `ls -1Ap "${path}" 2>/dev/null` (line 105, first variant). -/
def lsCmdV1 (p : String) : String := "ls -1Ap \"" ++ p ++ "\" 2>/dev/null"

/-- `ls -1Ap "${path}" 2>/dev/null || true` (line 439, safeExec variant). -/
def lsCmdV2 (p : String) : String := "ls -1Ap \"" ++ p ++ "\" 2>/dev/null || true"

/-- Name and kind recovered from one listing line (lines 116-131): at most
one trailing `-p`/`-F` marker is stripped — `/` directory, `@` symlink,
`*` executable, `|`/`=` pipe/socket (both plain files here) — and a line
with no marker is a plain file. -/
def stripMarker (l : List Char) : List Char × FileType :=
  if l.getLast? = some '/' then (l.dropLast, .Directory)
  else if l.getLast? = some '@' then (l.dropLast, .SymbolicLink)
  else if l.getLast? = some '*' then (l.dropLast, .File)
  else if l.getLast? = some '|' ∨ l.getLast? = some '=' then (l.dropLast, .File)
  else (l, .File)

/-- One loop iteration of `readDirectory` (lines 113-135): blank lines are
skipped, and after marker stripping so are empty names and `.`/`..`. -/
def parseLineChars (l : List Char) : Option (List Char × FileType) :=
  if l = [] then none
  else if (stripMarker l).1 ≠ [] ∧ (stripMarker l).1 ≠ ['.']
      ∧ (stripMarker l).1 ≠ ['.', '.'] then
    some (stripMarker l)
  else none

/-- The listing parser (lines 106-138): trim the output, return the empty
listing when nothing remains, otherwise process each line. -/
def parseDirListing (stdout : String) : List (String × FileType) :=
  if (jsTrim stdout).data = [] then []
  else
    ((splitOnChar '\n' (jsTrim stdout).data).filterMap parseLineChars).map
      (fun nt => (String.mk nt.1, nt.2))

/-- `readDirectory` of the first variant (lines 100-143). -/
def readDirectoryV1 (env : Env) (uri : Uri) (clientSet : Bool) :
    Except FsError (List (String × FileType)) :=
  if !clientSet then .error .Unavailable
  else
    match env (lsCmdV1 (parseUri uri).2) with
    | .error _ => .error .Unavailable
    | .ok r => .ok (parseDirListing r.stdout)

/-- `readDirectory` of the safeExec variant (lines 425-477). -/
def readDirectoryV2 (env : Env) (uri : Uri) (clientSet : Bool)
    (installAt : Option Nat) : Except FsError (List (String × FileType)) :=
  if !(waitForClient clientSet installAt) then .error .FileNotFound
  else
    match env (lsCmdV2 (parseUri uri).2) with
    | .error _ => .error .Unavailable
    | .ok r => .ok (parseDirListing r.stdout)

theorem getLast?_append_one (l : List Char) (c : Char) :
    (l ++ [c]).getLast? = some c :=
  List.getLast?_concat l

theorem dropLast_append_one (l : List Char) (c : Char) :
    (l ++ [c]).dropLast = l := by
  simp

/-- C9: per listing line exactly one trailing marker character is
stripped (`/` ⇒ directory, `@` ⇒ symlink, `*`, `|`, `=` ⇒ plain file), a
line with no trailing marker stands for a plain file under its own name,
blank lines and `.`/`..` are skipped; and concretely the listing
`data.txt` + `logs/` is reported as `(data.txt, file)`, `(logs,
directory)`. -/
theorem c9_marker_stripping (n : List Char)
    (h0 : n ≠ []) (h1 : n ≠ ['.']) (h2 : n ≠ ['.', '.'])
    (hlast : n.getLast? ≠ some '/' ∧ n.getLast? ≠ some '@'
      ∧ n.getLast? ≠ some '*' ∧ n.getLast? ≠ some '|' ∧ n.getLast? ≠ some '=') :
    parseLineChars (n ++ ['/']) = some (n, .Directory)
    ∧ parseLineChars (n ++ ['@']) = some (n, .SymbolicLink)
    ∧ parseLineChars (n ++ ['*']) = some (n, .File)
    ∧ parseLineChars (n ++ ['|']) = some (n, .File)
    ∧ parseLineChars (n ++ ['=']) = some (n, .File)
    ∧ parseLineChars n = some (n, .File)
    ∧ parseLineChars [] = none
    ∧ parseLineChars ['.'] = none
    ∧ parseLineChars ['.', '.'] = none
    ∧ parseDirListing "data.txt\nlogs/" = [("data.txt", .File), ("logs", .Directory)] := by
  obtain ⟨hs, ha, he, hp, hq⟩ := hlast
  have m1 : stripMarker (n ++ ['/']) = (n, .Directory) := by
    simp [stripMarker, getLast?_append_one]
  have m2 : stripMarker (n ++ ['@']) = (n, .SymbolicLink) := by
    simp [stripMarker, getLast?_append_one]
  have m3 : stripMarker (n ++ ['*']) = (n, .File) := by
    simp [stripMarker, getLast?_append_one]
  have m4 : stripMarker (n ++ ['|']) = (n, .File) := by
    simp [stripMarker, getLast?_append_one]
  have m5 : stripMarker (n ++ ['=']) = (n, .File) := by
    simp [stripMarker, getLast?_append_one]
  have m6 : stripMarker n = (n, .File) := by
    simp [stripMarker, hs, ha, he, hp, hq]
  refine ⟨?_, ?_, ?_, ?_, ?_, ?_, rfl, rfl, rfl, by decide⟩ <;>
    simp [parseLineChars, m1, m2, m3, m4, m5, m6, h0, h1, h2]

theorem c9_marker_stripping_witness :
    parseLineChars ("logs".data ++ ['/']) = some ("logs".data, .Directory)
    ∧ parseLineChars "data.txt".data = some ("data.txt".data, .File) := by
  have h := c9_marker_stripping "logs".data (by decide) (by decide) (by decide)
    (by refine ⟨?_, ?_, ?_, ?_, ?_⟩ <;> decide)
  have h' := c9_marker_stripping "data.txt".data (by decide) (by decide) (by decide)
    (by refine ⟨?_, ?_, ?_, ?_, ?_⟩ <;> decide)
  exact ⟨h.1, h'.2.2.2.2.2.1⟩

/-- C10: `readDirectory` maps any remote run whose trimmed stdout is empty
— an empty directory just like a missing or non-directory path, since the
listing command sends stderr to `/dev/null` — to the empty listing `ok []`
rather than `FileNotFound`, in both variants; the synthesized commands
discard stderr by construction. -/
theorem c10_empty_listing (env : Env) (uri : Uri) (r1 r2 : ExecResult)
    (h1 : env (lsCmdV1 (parseUri uri).2) = .ok r1) (h2 : jsTrim r1.stdout = "")
    (h3 : env (lsCmdV2 (parseUri uri).2) = .ok r2) (h4 : jsTrim r2.stdout = "") :
    readDirectoryV1 env uri true = .ok []
    ∧ readDirectoryV2 env uri true none = .ok []
    ∧ (∀ p, lsCmdV1 p = "ls -1Ap \"" ++ p ++ "\" 2>/dev/null")
    ∧ (∀ p, lsCmdV2 p = "ls -1Ap \"" ++ p ++ "\" 2>/dev/null || true") := by
  refine ⟨?_, ?_, fun p => rfl, fun p => rfl⟩
  · simp [readDirectoryV1, h1, parseDirListing, h2]
  · simp [readDirectoryV2, waitForClient, h3, parseDirListing, h4]

/-- Oracle for a missing path: `ls` writes only to stderr (discarded by
the command), so stdout is blank. -/
def envBlankLs : Env := fun _ => .ok ⟨" \n", "", 1⟩

theorem c10_empty_listing_witness :
    readDirectoryV1 envBlankLs ⟨"s1", "/missing"⟩ true = .ok []
    ∧ readDirectoryV2 envBlankLs ⟨"s1", "/missing"⟩ true none = .ok [] := by
  have h := c10_empty_listing envBlankLs ⟨"s1", "/missing"⟩
    ⟨" \n", "", 1⟩ ⟨" \n", "", 1⟩ rfl (by decide) rfl (by decide)
  exact ⟨h.1, h.2.1⟩

end SpriteFS
